import Mathlib

/-!
Verification of the nllb-server resource-management core
(src/docker/nllb-server.py): model/precision selection, memory
estimation, the resource monitor's pressure state machine, the
pressure-failure ledger, EWMA time-to-full, and translation metrics.

Machine integers are modelled as `Int` (the Python values are exact
ints in MB), float quantities as `Rat`.  Python's `round` (banker's
rounding, half-to-even) is modelled explicitly as `pyRound`.
-/

namespace NllbServer

/-- Python's built-in `round` on an exact rational: round half to even. -/
def pyRound (q : ℚ) : ℤ :=
  let f : ℤ := ⌊q⌋
  let r : ℚ := q - f
  if r < 1/2 then f
  else if r > 1/2 then f + 1
  else if f % 2 = 0 then f else f + 1

/-- `round(x, 3)` — Python round to three decimal digits. -/
def pyRound3 (q : ℚ) : ℚ := (pyRound (q * 1000) : ℚ) / 1000

/-- `round(x, 1)` — Python round to one decimal digit. -/
def pyRound1 (q : ℚ) : ℚ := (pyRound (q * 10) : ℚ) / 10




/-- `BYTES_PER_PARAM.get(precision, 4)`:
`{"fp32": 4, "bf16": 2, "fp16": 2, "int8": 1, "int4": 0.5}` with
default 4 for any unknown key. -/
def bytesPerParam (precision : String) : ℚ :=
  if precision = "fp32" then 4
  else if precision = "bf16" then 2
  else if precision = "fp16" then 2
  else if precision = "int8" then 1
  else if precision = "int4" then 1/2
  else 4

/-- `OVERHEAD_MB = 500` (src line 1186). -/
def OVERHEAD_MB : ℤ := 500

/-- `_mem_mb(params_m, precision)`:
`round(params_m * bpp * 1_000_000 / (1024 * 1024)) + OVERHEAD_MB`. -/
def mem_mb (params_m : ℕ) (precision : String) : ℤ :=
  pyRound ((params_m : ℚ) * bytesPerParam precision * 1000000 / (1024 * 1024))
    + OVERHEAD_MB




/-! ### Fill-rate estimator (`SubsystemVelocity`) -/

/-- One EWMA fill-rate tracker (src lines 174-208). -/
structure SubsystemVelocity where
  alpha : ℚ := 3/10
  prev_free_mb : Option ℤ := none
  prev_time : Option ℚ := none
  ewma_delta_per_s : ℚ := 0
deriving DecidableEq

/-- `SubsystemVelocity.update(free_mb, now)`: EWMA update, skipped unless a
previous sample exists and time moved forward. -/
def SubsystemVelocity.update (v : SubsystemVelocity) (free_mb : ℤ) (now : ℚ) :
    SubsystemVelocity :=
  let v' :=
    match v.prev_free_mb, v.prev_time with
    | some pf, some pt =>
        if now - pt > 0 then
          { v with ewma_delta_per_s :=
              v.alpha * (((free_mb : ℚ) - (pf : ℚ)) / (now - pt))
                + (1 - v.alpha) * v.ewma_delta_per_s }
        else v
    | _, _ => v
  { v' with prev_free_mb := some free_mb, prev_time := some now }

/-- `fill_rate_mb_s`: the negated EWMA (positive = filling). -/
def SubsystemVelocity.fill_rate_mb_s (v : SubsystemVelocity) : ℚ :=
  -v.ewma_delta_per_s

/-- `time_to_full_s(current_free_mb)`: `None` when the EWMA is above the
`-0.1` dead-band, else `current_free / (-ewma)` (src lines 199-208). -/
def SubsystemVelocity.time_to_full_s (v : SubsystemVelocity)
    (current_free_mb : ℚ) : Option ℚ :=
  if v.ewma_delta_per_s ≥ -(1/10) then none
  else some (current_free_mb / (-v.ewma_delta_per_s))

/-! ### Resource snapshots -/

/-- `ResourceSnapshot` (src lines 211-229).  All memory fields in MB. -/
structure ResourceSnapshot where
  timestamp : ℚ
  vram_allocated_mb : ℤ
  vram_reserved_mb : ℤ
  vram_total_mb : ℤ
  vram_free_mb : ℤ
  vram_fill_rate_mb_s : ℚ
  vram_ttf_s : Option ℚ
  ram_rss_mb : ℤ
  ram_available_mb : ℤ
  ram_total_mb : ℤ
  ram_fill_rate_mb_s : ℚ
  ram_ttf_s : Option ℚ
  swap_used_mb : ℤ
  swap_total_mb : ℤ
  swap_fill_rate_mb_s : ℚ
  swap_ttf_s : Option ℚ
  process_swap_mb : ℤ
deriving DecidableEq

/-! ### Resource monitor -/

/-- Pressure levels (src lines 147-152). -/
inductive PressureLevel where
  | ok
  | warn
  | vramFull
  | critical
deriving DecidableEq

/-- `LoadContext` (src lines 155-171). -/
structure LoadContext where
  model_id : String
  precision : String
  device : String
  estimated_total_mb : ℤ
  vram_baseline_mb : ℤ := 0
  ram_baseline_mb : ℤ := 0
  started_at : ℚ := 0
deriving DecidableEq

/-- Result dict of `ResourceMonitor.get_load_progress` (src lines 521-568). -/
structure LoadProgress where
  model_id : String
  estimated_total_mb : ℤ
  consumed_mb : ℤ
  progress_pct : ℚ
  remaining_mb : ℤ
  ram_available_mb : ℤ
  ram_after_load_mb : ℤ
  will_ram_survive : Bool
  load_elapsed_s : ℚ
deriving DecidableEq

/-- The monitor configuration and startup-captured constants used by the
pressure checks (`__init__`, src lines 344-394). -/
structure MonitorConfig where
  vram_soft_mb : ℤ := 2000
  vram_hard_mb : ℤ := 500
  ram_soft_mb : ℤ := 4000
  ram_hard_mb : ℤ := 1000
  swap_hard_mb : ℤ := 0
  vram_total_mb : ℤ := 0
  swap_baseline_mb : ℤ := 0
deriving DecidableEq

/-- `ResourceMonitor.get_load_progress(snap)` (src lines 521-568). -/
def get_load_progress (cfg : MonitorConfig) (ctx : Option LoadContext)
    (snap : ResourceSnapshot) : Option LoadProgress :=
  match ctx with
  | none => none
  | some c =>
    let vram_delta := max 0 (snap.vram_allocated_mb - c.vram_baseline_mb)
    let ram_used_now := snap.ram_total_mb - snap.ram_available_mb
    let ram_delta := max 0 (ram_used_now - c.ram_baseline_mb)
    let consumed := vram_delta + ram_delta
    let progress_pct : ℚ :=
      if c.estimated_total_mb > 0 then
        min ((consumed : ℚ) / (c.estimated_total_mb : ℚ) * 100) 100
      else 0
    let remaining := max 0 (c.estimated_total_mb - consumed)
    let remaining_to_ram := max 0 (remaining - snap.vram_free_mb)
    let ram_after_load := snap.ram_available_mb - remaining_to_ram
    some { model_id := c.model_id,
           estimated_total_mb := c.estimated_total_mb,
           consumed_mb := consumed,
           progress_pct := pyRound1 progress_pct,
           remaining_mb := remaining,
           ram_available_mb := snap.ram_available_mb,
           ram_after_load_mb := ram_after_load,
           will_ram_survive := decide (ram_after_load > cfg.ram_hard_mb),
           load_elapsed_s := pyRound1 (snap.timestamp - c.started_at) }

/-- Tags for the individual soft-arm reasons of `_check_arm_conditions`
(src lines 577-599); the Python code renders them into one string. -/
inductive ArmReason where
  | vramSoft
  | ramSoft
  | vramTtf
  | ramTtf
  | loadPredict
deriving DecidableEq

/-- Tags for the individual reasons of `_check_hard_conditions`
(src lines 612-638). -/
inductive HardReason where
  | ramHard
  | swapHard
  | processSwap
  | loadWillExhaustRam
deriving DecidableEq

/-- `t is not None and t < lim` on an optional TTF value. -/
def ttf_below (t : Option ℚ) (lim : ℚ) : Bool :=
  match t with
  | some v => decide (v < lim)
  | none => false

/-- `_check_arm_conditions` (src lines 577-599): the list of soft-arm
reasons; the monitor arms iff the list is nonempty. -/
def check_arm_conditions (cfg : MonitorConfig) (ctx : Option LoadContext)
    (snap : ResourceSnapshot) : List ArmReason :=
  (if cfg.vram_total_mb > 0 ∧ snap.vram_free_mb < cfg.vram_soft_mb
    then [ArmReason.vramSoft] else [])
  ++ (if snap.ram_available_mb < cfg.ram_soft_mb then [ArmReason.ramSoft] else [])
  ++ (if ttf_below snap.vram_ttf_s 10 then [ArmReason.vramTtf] else [])
  ++ (if ttf_below snap.ram_ttf_s 30 then [ArmReason.ramTtf] else [])
  ++ (match get_load_progress cfg ctx snap with
      | some lp => if lp.will_ram_survive then [] else [ArmReason.loadPredict]
      | none => [])

/-- `_check_vram_hard` (src lines 601-610). -/
def check_vram_hard (cfg : MonitorConfig) (snap : ResourceSnapshot) : Bool :=
  decide (cfg.vram_total_mb > 0 ∧ snap.vram_free_mb < cfg.vram_hard_mb)

/-- `_check_hard_conditions` (src lines 612-638): the list of CRITICAL
reasons; the kill line fires iff the list is nonempty. -/
def check_hard_conditions (cfg : MonitorConfig) (ctx : Option LoadContext)
    (snap : ResourceSnapshot) : List HardReason :=
  (if snap.ram_available_mb < cfg.ram_hard_mb then [HardReason.ramHard] else [])
  ++ (if max 0 (snap.swap_used_mb - cfg.swap_baseline_mb) > cfg.swap_hard_mb
      then [HardReason.swapHard] else [])
  ++ (if snap.process_swap_mb > 0 then [HardReason.processSwap] else [])
  ++ (match get_load_progress cfg ctx snap with
      | some lp =>
          if lp.will_ram_survive = false ∧ snap.ram_available_mb < cfg.ram_soft_mb
          then [HardReason.loadWillExhaustRam] else []
      | none => [])

/-- The monitor's mutable pressure state (fields of `ResourceMonitor`,
src lines 364-370).  The Python reason string is modelled as the list of
reason tags it renders (empty string = empty list). -/
structure MonState where
  state : PressureLevel
  pressure_event : Bool
  pressure_reason : List HardReason
  pressure_snapshot : Option ResourceSnapshot
  stepdown_active : Bool
  stepped_down_from : Option String
  stepped_down_to : Option String
deriving DecidableEq

/-- `ResourceMonitor.clear_pressure` (src lines 483-488). -/
def clear_pressure (s : MonState) : MonState :=
  { s with pressure_event := false, pressure_reason := [],
           pressure_snapshot := none, state := PressureLevel.ok }

/-- One iteration of `_poll_loop` (src lines 652-753) applied to a fresh
snapshot: exactly the state-machine branch of the loop body (logging and
timeline emission omitted — no claim concerns them). -/
def poll_step (cfg : MonitorConfig) (ctx : Option LoadContext) (s : MonState)
    (snap : ResourceSnapshot) : MonState :=
  match s.state with
  | PressureLevel.ok =>
      if check_arm_conditions cfg ctx snap ≠ [] then
        { s with state := PressureLevel.warn }
      else s
  | PressureLevel.warn =>
      if check_hard_conditions cfg ctx snap ≠ [] then
        { s with state := PressureLevel.critical, pressure_event := true,
                 pressure_reason := check_hard_conditions cfg ctx snap,
                 pressure_snapshot := some snap }
      else if check_vram_hard cfg snap then
        { s with state := PressureLevel.vramFull }
      else if check_arm_conditions cfg ctx snap = [] then
        { s with state := PressureLevel.ok }
      else s
  | PressureLevel.vramFull =>
      if check_hard_conditions cfg ctx snap ≠ [] then
        { s with state := PressureLevel.critical, pressure_event := true,
                 pressure_reason := check_hard_conditions cfg ctx snap,
                 pressure_snapshot := some snap }
      else if check_vram_hard cfg snap = false then
        (if check_arm_conditions cfg ctx snap ≠ [] then
          { s with state := PressureLevel.warn }
         else { s with state := PressureLevel.ok })
      else s
  | PressureLevel.critical =>
      if check_hard_conditions cfg ctx snap ≠ [] then
        { s with pressure_reason := check_hard_conditions cfg ctx snap,
                 pressure_snapshot := some snap }
      else s

/-- The monitor-state effect of a successful `_perform_stepdown`
(src lines 1793-1796): mark the stepdown, then `clear_pressure()`. -/
def perform_stepdown_success (s : MonState) (current next : String) : MonState :=
  clear_pressure { s with stepdown_active := true,
                          stepped_down_from := some current,
                          stepped_down_to := some next }

/-! ### Pressure failure ledger (`PressureFailureCache`) -/

/-- One entry of the `failures` list (src lines 787-804, 892-899). -/
structure FailureRecord where
  model_id : String
  precision : String
  device : String
  recorded_at : ℚ
  reason : String
  snapshot : Option ResourceSnapshot
deriving DecidableEq

/-- The `(model_id, precision, device)` match used by both
`record_failure` and `is_known_failure`. -/
def matchesCombo (m p d : String) (f : FailureRecord) : Bool :=
  decide (f.model_id = m ∧ f.precision = p ∧ f.device = d)

/-- `PressureFailureCache.record_failure` (src lines 870-903) acting on the
in-memory `failures` list: update the first record with the same combo in
place, else append a fresh record.  `now` stands for
`datetime.now(timezone.utc)`. -/
def record_failure : List FailureRecord → String → String → String → ℚ →
    String → Option ResourceSnapshot → List FailureRecord
  | [], m, p, d, now, reason, snap =>
      [{ model_id := m, precision := p, device := d,
         recorded_at := now, reason := reason, snapshot := snap }]
  | f :: rest, m, p, d, now, reason, snap =>
      if matchesCombo m p d f then
        { f with recorded_at := now, reason := reason, snapshot := snap } :: rest
      else
        f :: record_failure rest m p d now reason snap

/-- `PressureFailureCache.is_known_failure` (src lines 905-913). -/
def is_known_failure (l : List FailureRecord) (m p d : String) :
    Option FailureRecord :=
  l.find? (matchesCombo m p d)

/-- Number of ledger records matching a combo. -/
def countMatching (l : List FailureRecord) (m p d : String) : ℕ :=
  (l.filter (matchesCombo m p d)).length

/-! ### Selector (`_resolve_model`, auto path) -/

/-- One entry of `NLLB_SPECS` (src lines 1172-1177). -/
structure ModelSpec where
  model_id : String
  params_m : ℕ
  cpu_practical : Bool
deriving DecidableEq

/-- `NLLB_SPECS`, sorted largest-first (src lines 1172-1177). -/
def NLLB_SPECS : List ModelSpec :=
  [ { model_id := "facebook/nllb-200-3.3B", params_m := 3300,
      cpu_practical := false },
    { model_id := "facebook/nllb-200-distilled-1.3B", params_m := 1300,
      cpu_practical := true },
    { model_id := "facebook/nllb-200-distilled-600M", params_m := 600,
      cpu_practical := true } ]

/-- `_is_cached_failure` (src lines 1348-1359): true iff the ledger has a
record for the combo. -/
def is_cached_failure (cache : List FailureRecord) (m p d : String) : Bool :=
  (is_known_failure cache m p d).isSome

/-- One pass of the auto-select loops (src lines 1285-1291, 1298-1307,
1316-1322): the first spec, in order, whose estimate fits `usable` and
whose combo is not a cached failure (`continue` on a ledger hit). -/
def firstFit (cache : List FailureRecord) (specs : List ModelSpec)
    (usable : ℤ) (prec device : String) : Option String :=
  (specs.find? (fun s =>
    decide (mem_mb s.params_m prec ≤ usable)
      && !is_cached_failure cache s.model_id prec device)).map ModelSpec.model_id

/-- The successive precisions visited by the `fallback_chain` while-loop
(src lines 1294-1308): `bf16 → fp16 → int8 → int4`. -/
def lowerPrecisions (p : String) : List String :=
  if p = "bf16" then ["fp16", "int8", "int4"]
  else if p = "fp16" then ["int8", "int4"]
  else if p = "int8" then ["int4"]
  else []

/-- Try `firstFit` at each precision in order, returning the model and the
precision at which it fit. -/
def tryPrecisions (cache : List FailureRecord) (usable : ℤ) (device : String) :
    List String → Option (String × String)
  | [] => none
  | p :: rest =>
      match firstFit cache NLLB_SPECS usable p device with
      | some m => some (m, p)
      | none => tryPrecisions cache usable device rest

/-- The auto path of `_resolve_model` (src lines 1278-1327) up to, but not
including, the absolute fallback: on CUDA first the resolved precision then
the fallback chain against `vram − 2000`; then (also reached on CUDA when
nothing fit) the CPU-practical pass against `ram − 4000` with device string
`"cpu"`.  Returns the selected model together with the precision and device
string the ledger was consulted with, or `none` if no candidate fit. -/
def selectAuto (device : String) (vram_mb ram_mb : ℤ)
    (cache : List FailureRecord) (precision : String) :
    Option (String × String × String) :=
  let cudaResult : Option (String × String) :=
    if device = "cuda" then
      tryPrecisions cache (vram_mb - 2000) "cuda"
        (precision :: lowerPrecisions precision)
    else none
  match cudaResult with
  | some (m, p) => some (m, p, "cuda")
  | none =>
      let usable := ram_mb - 4000
      match firstFit cache (NLLB_SPECS.filter ModelSpec.cpu_practical)
          usable precision "cpu" with
      | some m => some (m, precision, "cpu")
      | none => none

/-- `_resolve_model` with no `MODEL_NAME` / `NLLB_PARAMS` override
(src lines 1278-1327): the auto search, falling back to `NLLB_SPECS[-1]`
(the 600M model) when nothing fits — the fallback does not consult the
ledger. -/
def resolve_model_auto (device : String) (vram_mb ram_mb : ℤ)
    (cache : List FailureRecord) (precision : String) : String :=
  match selectAuto device vram_mb ram_mb cache precision with
  | some (m, _, _) => m
  | none => ((NLLB_SPECS.getLast?).map ModelSpec.model_id).getD ""

/-! ### Translate metrics (`_translate_with_metrics`) -/

/-- `TranslationMetrics` as assembled at src lines 1729-1738. -/
structure TranslationMetrics where
  input_tokens : ℕ
  output_tokens : ℕ
  tokenize_ms : ℚ
  generate_ms : ℚ
  ttft_ms : ℚ
  decode_ms : ℚ
  total_ms : ℚ
  throughput_tok_s : ℚ
deriving DecidableEq

/-- The metric computation of `_translate_with_metrics` (src lines
1692-1738) as a function of the four `perf_counter` instants, the optional
first-token capture (`TTFTCapture.ttft_s`, `None` when the capture never
fired), and the token counts.  `ttft_s or 0.0` is `getD 0` (for a captured
value of exactly `0.0` both yield `0.0`). -/
def translate_metrics (t0 t_tokenize t_generate t_decode : ℚ)
    (captured_ttft_s : Option ℚ) (input_tokens output_tokens : ℕ) :
    TranslationMetrics :=
  let tokenize_ms := (t_tokenize - t0) * 1000
  let generate_ms := (t_generate - t_tokenize) * 1000
  let ttft_ms := captured_ttft_s.getD 0 * 1000
  let decode_ms := (t_decode - t_generate) * 1000
  let total_ms := (t_decode - t0) * 1000
  let throughput :=
    if total_ms > 0 then (output_tokens : ℚ) / (total_ms / 1000) else 0
  { input_tokens := input_tokens,
    output_tokens := output_tokens,
    tokenize_ms := pyRound3 tokenize_ms,
    generate_ms := pyRound3 generate_ms,
    ttft_ms := pyRound3 ttft_ms,
    decode_ms := pyRound3 decode_ms,
    total_ms := pyRound3 total_ms,
    throughput_tok_s := pyRound1 throughput }

/-! ### Spec-side definitions and concrete fixtures -/

/-- The transition table of spec section 4.3 (the CRITICAL → OK row is the
`clear_pressure` edge): the pairs of distinct levels the monitor may move
between. -/
def spec43Transition (a b : PressureLevel) : Prop :=
  (a = PressureLevel.ok ∧ b = PressureLevel.warn)
  ∨ (a = PressureLevel.warn ∧
      (b = PressureLevel.critical ∨ b = PressureLevel.vramFull
        ∨ b = PressureLevel.ok))
  ∨ (a = PressureLevel.vramFull ∧
      (b = PressureLevel.critical ∨ b = PressureLevel.warn
        ∨ b = PressureLevel.ok))
  ∨ (a = PressureLevel.critical ∧ b = PressureLevel.ok)

/-- The default monitor configuration (env defaults, src lines 344-353,
756-767) on a host with no GPU and no ambient swap. -/
def cfgDefault : MonitorConfig := {}

/-- A snapshot of a healthy host whose available RAM sits exactly on the
default `ram_hard_mb = 1000` threshold; everything else is quiet. -/
def snapAtRamHard : ResourceSnapshot :=
  { timestamp := 0, vram_allocated_mb := 0, vram_reserved_mb := 0,
    vram_total_mb := 0, vram_free_mb := 0, vram_fill_rate_mb_s := 0,
    vram_ttf_s := none, ram_rss_mb := 0, ram_available_mb := 1000,
    ram_total_mb := 8000, ram_fill_rate_mb_s := 0, ram_ttf_s := none,
    swap_used_mb := 0, swap_total_mb := 0, swap_fill_rate_mb_s := 0,
    swap_ttf_s := none, process_swap_mb := 0 }

/-- A freshly initialised monitor state (src lines 364-370). -/
def monStateInit : MonState :=
  { state := PressureLevel.ok, pressure_event := false, pressure_reason := [],
    pressure_snapshot := none, stepdown_active := false,
    stepped_down_from := none, stepped_down_to := none }

/-- A ledger holding one failure record: the 600M model at fp32 on cpu. -/
def cache600 : List FailureRecord :=
  [{ model_id := "facebook/nllb-200-distilled-600M", precision := "fp32",
     device := "cpu", recorded_at := 0, reason := "ram pressure",
     snapshot := none }]

/-! ### Helper lemmas -/

theorem pyRound_of_lt_half (q : ℚ) (n : ℤ) (h1 : (n : ℚ) ≤ q)
    (h2 : q - n < 1/2) : pyRound q = n := by
  have hq : ⌊q⌋ = n := Int.floor_eq_iff.mpr ⟨h1, by linarith⟩
  unfold pyRound
  rw [hq, if_pos h2]

theorem pyRound_of_gt_half (q : ℚ) (n : ℤ) (h1 : q - n > 1/2)
    (h2 : q < n + 1) : pyRound q = n + 1 := by
  have hq : ⌊q⌋ = n := Int.floor_eq_iff.mpr ⟨by linarith, by linarith⟩
  unfold pyRound
  rw [hq, if_neg (by linarith), if_pos h1]

theorem pyRound_intCast (n : ℤ) : pyRound n = n := by
  apply pyRound_of_lt_half <;> norm_num

theorem mem_mb_600_fp32 : mem_mb 600 "fp32" = 2789 := by
  unfold mem_mb OVERHEAD_MB
  rw [show bytesPerParam "fp32" = 4 from rfl,
    pyRound_of_gt_half _ 2288 (by norm_num) (by norm_num)]
  norm_num

theorem mem_mb_1300_fp32 : mem_mb 1300 "fp32" = 5459 := by
  unfold mem_mb OVERHEAD_MB
  rw [show bytesPerParam "fp32" = 4 from rfl,
    pyRound_of_lt_half _ 4959 (by norm_num) (by norm_num)]
  norm_num

theorem mem_mb_3300_bf16 : mem_mb 3300 "bf16" = 6794 := by
  unfold mem_mb OVERHEAD_MB
  rw [show bytesPerParam "bf16" = 2 from rfl,
    pyRound_of_lt_half _ 6294 (by norm_num) (by norm_num)]
  norm_num

/-! ### Claims -/

/-- C4, counterexample: at `params_m = 600`, `precision = "fp32"` the code's
estimate is 2789 MB while the spec formula
`params_m * bytes_per_param * 10^6 / 2^20 + 300` gives 2588.8 MB — the
overhead in the code is 500 MB, not 300 MB. -/
theorem C4_counterexample :
    (mem_mb 600 "fp32" : ℚ) ≠ (600 * 4 * 1000000 / 2^20 + 300 : ℚ) := by
  rw [mem_mb_600_fp32]
  norm_num

/-- C4 (amended): for every model size and precision, the memory estimate is
`round(params_m * bytes_per_param * 10^6 / 2^20) + 500` (round half to
even), with `bytes_per_param = {fp32: 4, bf16: 2, fp16: 2, int8: 1,
int4: 0.5}` (and 4 for any other string). -/
theorem C4_amended : ∀ (params_m : ℕ) (precision : String),
    mem_mb params_m precision
        = pyRound ((params_m : ℚ) * bytesPerParam precision * 1000000 / 2^20)
            + 500
      ∧ bytesPerParam "fp32" = 4 ∧ bytesPerParam "bf16" = 2
      ∧ bytesPerParam "fp16" = 2 ∧ bytesPerParam "int8" = 1
      ∧ bytesPerParam "int4" = 1/2 := by
  intro params_m precision
  refine ⟨?_, rfl, rfl, rfl, rfl, rfl⟩
  unfold mem_mb OVERHEAD_MB
  norm_num

/-- C5 (confirmed): time-to-full is absent exactly when the EWMA velocity is
at or above the `-0.1` MB/s dead-band, and otherwise equals
`current_free / (-v)` seconds. -/
theorem C5_ttf_deadband : ∀ (v : SubsystemVelocity) (free : ℚ),
    (v.ewma_delta_per_s ≥ -(1/10) → v.time_to_full_s free = none)
    ∧ (v.ewma_delta_per_s < -(1/10) →
        v.time_to_full_s free = some (free / (-v.ewma_delta_per_s))) := by
  intro v free
  constructor
  · intro h
    unfold SubsystemVelocity.time_to_full_s
    rw [if_pos h]
  · intro h
    unfold SubsystemVelocity.time_to_full_s
    rw [if_neg (not_le.mpr h)]

/-- C5 witness: a stable tracker (EWMA 0) reports no TTF; a tracker draining
at 1 MB/s with 100 MB free reports 100 s. -/
theorem C5_ttf_deadband_witness :
    ({ ewma_delta_per_s := 0 } : SubsystemVelocity).time_to_full_s 100 = none
    ∧ ({ ewma_delta_per_s := -1 } : SubsystemVelocity).time_to_full_s 100
        = some 100 := by
  constructor
  · exact (C5_ttf_deadband { ewma_delta_per_s := 0 } 100).1 (by norm_num)
  · simpa using (C5_ttf_deadband { ewma_delta_per_s := -1 } 100).2 (by norm_num)

/-- C7 (confirmed): `clear_pressure` is idempotent, and afterwards the
pressure event is unset, reason and snapshot are cleared, and the state is
OK. -/
theorem C7_clear_pressure : ∀ s : MonState,
    clear_pressure (clear_pressure s) = clear_pressure s
    ∧ (clear_pressure s).pressure_event = false
    ∧ (clear_pressure s).pressure_reason = []
    ∧ (clear_pressure s).pressure_snapshot = none
    ∧ (clear_pressure s).state = PressureLevel.ok :=
  fun _ => ⟨rfl, rfl, rfl, rfl, rfl⟩

/-- C9 (confirmed): none of the modelled monitor-state operations resets
`stepdown_active` to false — `clear_pressure` leaves `stepdown_active`,
`stepped_down_from` and `stepped_down_to` unchanged, a poll-loop iteration
leaves all three unchanged, and a successful stepdown only ever sets the
flag to true. -/
theorem C9_stepdown_flag_sticky : ∀ (s : MonState),
    ((clear_pressure s).stepdown_active = s.stepdown_active
      ∧ (clear_pressure s).stepped_down_from = s.stepped_down_from
      ∧ (clear_pressure s).stepped_down_to = s.stepped_down_to)
    ∧ (∀ (cfg : MonitorConfig) (ctx : Option LoadContext)
          (snap : ResourceSnapshot),
        (poll_step cfg ctx s snap).stepdown_active = s.stepdown_active
          ∧ (poll_step cfg ctx s snap).stepped_down_from = s.stepped_down_from
          ∧ (poll_step cfg ctx s snap).stepped_down_to = s.stepped_down_to)
    ∧ (∀ current next,
        (perform_stepdown_success s current next).stepdown_active = true) := by
  intro s
  refine ⟨⟨rfl, rfl, rfl⟩, ?_, fun current next => rfl⟩
  intro cfg ctx snap
  obtain ⟨st, ev, r, sn, sa, f, t⟩ := s
  cases st <;> simp only [poll_step] <;> split_ifs <;>
    exact ⟨rfl, rfl, rfl⟩

/-- C10 (confirmed): any precision string other than fp32/bf16/fp16/int8/int4
is estimated at the 4-bytes-per-parameter float32 default. -/
theorem C10_unknown_precision_default :
    ∀ (params_m : ℕ) (precision : String),
    precision ≠ "fp32" → precision ≠ "bf16" → precision ≠ "fp16" →
    precision ≠ "int8" → precision ≠ "int4" →
    mem_mb params_m precision
      = pyRound ((params_m : ℚ) * 4 * 1000000 / 2^20) + 500 := by
  intro params_m precision h1 h2 h3 h4 h5
  unfold mem_mb OVERHEAD_MB bytesPerParam
  rw [if_neg h1, if_neg h2, if_neg h3, if_neg h4, if_neg h5]
  norm_num

/-- C10 witness: the CTranslate2-style name `int8_float16` is not one of the
five known keys and falls back to the float32 estimate. -/
theorem C10_unknown_precision_default_witness :
    mem_mb 600 "int8_float16" = pyRound ((600 : ℚ) * 4 * 1000000 / 2^20) + 500 :=
  C10_unknown_precision_default 600 "int8_float16"
    (by decide) (by decide) (by decide) (by decide) (by decide)

/-- C2 (confirmed): a single poll-loop iteration either keeps the pressure
level or moves along an edge of the spec section 4.3 table; in particular a
step from OK lands in OK or WARN, never in CRITICAL or VRAM_FULL. -/
theorem C2_adjacent_transitions : ∀ (cfg : MonitorConfig)
    (ctx : Option LoadContext) (s : MonState) (snap : ResourceSnapshot),
    ((poll_step cfg ctx s snap).state = s.state
      ∨ spec43Transition s.state (poll_step cfg ctx s snap).state)
    ∧ (s.state = PressureLevel.ok →
        (poll_step cfg ctx s snap).state = PressureLevel.ok
          ∨ (poll_step cfg ctx s snap).state = PressureLevel.warn) := by
  intro cfg ctx s snap
  obtain ⟨st, ev, r, sn, sa, f, t⟩ := s
  cases st <;> simp only [poll_step] <;> split_ifs <;>
    simp_all [spec43Transition]

/-- C2 witness: from a fresh OK state on a healthy snapshot, one poll step
stays in OK or moves to WARN. -/
theorem C2_adjacent_transitions_witness :
    (poll_step cfgDefault none monStateInit snapAtRamHard).state
        = PressureLevel.ok
    ∨ (poll_step cfgDefault none monStateInit snapAtRamHard).state
        = PressureLevel.warn :=
  (C2_adjacent_transitions cfgDefault none monStateInit snapAtRamHard).2 rfl

/-- C3, counterexample: with the default thresholds, a snapshot whose
available RAM equals `ram_hard_mb = 1000` exactly fires no hard condition at
all — the comparison is strict. -/
theorem C3_counterexample :
    snapAtRamHard.ram_available_mb = cfgDefault.ram_hard_mb
    ∧ check_hard_conditions cfgDefault none snapAtRamHard = [] := by
  refine ⟨rfl, ?_⟩
  simp [check_hard_conditions, get_load_progress, cfgDefault, snapAtRamHard]

/-- C3 (amended): the RAM hard (CRITICAL) condition fires exactly when
`ram_available_mb` is strictly below `ram_hard_mb`; at equality it does not
fire. -/
theorem C3_ram_hard_strict : ∀ (cfg : MonitorConfig)
    (ctx : Option LoadContext) (snap : ResourceSnapshot),
    HardReason.ramHard ∈ check_hard_conditions cfg ctx snap
      ↔ snap.ram_available_mb < cfg.ram_hard_mb := by
  intro cfg ctx snap
  rcases hlp : get_load_progress cfg ctx snap with _ | lp <;>
    · simp only [check_hard_conditions, hlp, List.mem_append]
      split_ifs <;> simp_all

theorem matchesCombo_record (m p d : String) (now : ℚ) (reason : String)
    (snap : Option ResourceSnapshot) :
    matchesCombo m p d ⟨m, p, d, now, reason, snap⟩ = true := by
  simp [matchesCombo]

theorem record_failure_filter (m p d : String) (now : ℚ) (reason : String)
    (snap : Option ResourceSnapshot) : ∀ (l : List FailureRecord),
    countMatching l m p d ≤ 1 →
    (record_failure l m p d now reason snap).filter (matchesCombo m p d)
      = [⟨m, p, d, now, reason, snap⟩] := by
  intro l
  induction l with
  | nil =>
      intro _
      simp [record_failure, List.filter_cons, matchesCombo_record]
  | cons f rest ih =>
      intro hcount
      by_cases hm : matchesCombo m p d f = true
      · have hfields : f.model_id = m ∧ f.precision = p ∧ f.device = d := by
          simpa [matchesCombo] using hm
        have hlen : (List.filter (matchesCombo m p d) rest).length = 0 := by
          have h := hcount
          unfold countMatching at h
          rw [List.filter_cons_of_pos hm] at h
          simp only [List.length_cons] at h
          omega
        have hrest : rest.filter (matchesCombo m p d) = [] :=
          List.length_eq_zero.mp hlen
        rw [record_failure, if_pos hm]
        have hupd : matchesCombo m p d
            { f with recorded_at := now, reason := reason, snapshot := snap }
              = true := by
          simp [matchesCombo, hfields.1, hfields.2.1, hfields.2.2]
        rw [List.filter_cons_of_pos hupd, hrest]
        obtain ⟨fm, fp, fd, fr, fs, fn⟩ := f
        obtain ⟨h1, h2, h3⟩ := hfields
        subst h1 h2 h3
        rfl
      · have hcount' : countMatching rest m p d ≤ 1 := by
          unfold countMatching at hcount ⊢
          rwa [List.filter_cons_of_neg hm] at hcount
        rw [record_failure, if_neg hm, List.filter_cons_of_neg hm]
        exact ih hcount'

/-- C6 (confirmed): starting from any ledger with at most one record for a
combo (the invariant `record_failure` maintains), recording a failure twice
for that combo leaves exactly one matching record, and it carries the
second call's timestamp, reason and snapshot. -/
theorem C6_record_failure_dedup : ∀ (l : List FailureRecord)
    (m p d : String) (t1 : ℚ) (r1 : String) (s1 : Option ResourceSnapshot)
    (t2 : ℚ) (r2 : String) (s2 : Option ResourceSnapshot),
    countMatching l m p d ≤ 1 →
    countMatching
        (record_failure (record_failure l m p d t1 r1 s1) m p d t2 r2 s2)
        m p d = 1
    ∧ (record_failure (record_failure l m p d t1 r1 s1) m p d t2 r2 s2).filter
        (matchesCombo m p d)
      = [⟨m, p, d, t2, r2, s2⟩] := by
  intro l m p d t1 r1 s1 t2 r2 s2 hcount
  have h1 := record_failure_filter m p d t1 r1 s1 l hcount
  have hcount1 : countMatching (record_failure l m p d t1 r1 s1) m p d ≤ 1 := by
    unfold countMatching
    rw [h1]
    simp
  have h2 := record_failure_filter m p d t2 r2 s2 _ hcount1
  refine ⟨?_, h2⟩
  unfold countMatching
  rw [h2]
  rfl

/-- C6 witness: recording the 3.3B/bf16/cuda combo twice into an empty
ledger leaves exactly one matching record, carrying the second reason and
timestamp. -/
theorem C6_record_failure_dedup_witness :
    countMatching [] "facebook/nllb-200-3.3B" "bf16" "cuda" ≤ 1
    ∧ countMatching
        (record_failure
          (record_failure [] "facebook/nllb-200-3.3B" "bf16" "cuda" 1 "oom" none)
          "facebook/nllb-200-3.3B" "bf16" "cuda" 2 "swap thrash" none)
        "facebook/nllb-200-3.3B" "bf16" "cuda" = 1 :=
  ⟨by decide,
    (C6_record_failure_dedup [] "facebook/nllb-200-3.3B" "bf16" "cuda"
      1 "oom" none 2 "swap thrash" none (by decide)).1⟩

theorem firstFit_not_cached (cache : List FailureRecord)
    (specs : List ModelSpec) (usable : ℤ) (prec device m : String) :
    firstFit cache specs usable prec device = some m →
    is_cached_failure cache m prec device = false := by
  unfold firstFit
  intro h
  rcases Option.map_eq_some'.mp h with ⟨spec, hfind, rfl⟩
  have hp := List.find?_some hfind
  simp only [Bool.and_eq_true, Bool.not_eq_true'] at hp
  exact hp.2

theorem tryPrecisions_not_cached (cache : List FailureRecord) (usable : ℤ)
    (device : String) : ∀ (ps : List String) (m p : String),
    tryPrecisions cache usable device ps = some (m, p) →
    is_cached_failure cache m p device = false := by
  intro ps
  induction ps with
  | nil =>
      intro m p h
      simp [tryPrecisions] at h
  | cons q rest ih =>
      intro m p h
      rcases hf : firstFit cache NLLB_SPECS usable q device with _ | m'
      · rw [tryPrecisions, hf] at h
        exact ih m p h
      · rw [tryPrecisions, hf] at h
        obtain ⟨rfl, rfl⟩ : m' = m ∧ q = p := by
          have hmp := Option.some.inj h
          exact ⟨congrArg Prod.fst hmp, congrArg Prod.snd hmp⟩
        exact firstFit_not_cached cache NLLB_SPECS usable q device m' hf

/-- C1, counterexample: on a CPU host with 1000 MB RAM nothing fits in
usable memory, and auto-selection falls back to the 600M model even though
the ledger records (600M, fp32, cpu) as a failed combo. -/
theorem C1_counterexample :
    resolve_model_auto "cpu" 0 1000 cache600 "fp32"
        = "facebook/nllb-200-distilled-600M"
    ∧ is_cached_failure cache600 "facebook/nllb-200-distilled-600M" "fp32"
        "cpu" = true := by
  constructor
  · have h13 : decide (mem_mb 1300 "fp32" ≤ (-3000 : ℤ)) = false := by
      rw [mem_mb_1300_fp32]; decide
    have h600 : decide (mem_mb 600 "fp32" ≤ (-3000 : ℤ)) = false := by
      rw [mem_mb_600_fp32]; decide
    simp [resolve_model_auto, selectAuto, firstFit, NLLB_SPECS, tryPrecisions,
      List.find?, List.filter, h13, h600]
  · decide

/-- C1 (amended): whenever the auto search selects a model through one of
its fitting passes, the returned (model, precision, device) combo is not in
the ledger; but when no candidate fits at any precision, `_resolve_model`
returns the last spec (the 600M model) without consulting the ledger. -/
theorem C1_auto_skips_ledger : ∀ (device : String) (vram ram : ℤ)
    (cache : List FailureRecord) (prec : String),
    (∀ m p d, selectAuto device vram ram cache prec = some (m, p, d) →
        is_cached_failure cache m p d = false)
    ∧ (selectAuto device vram ram cache prec = none →
        resolve_model_auto device vram ram cache prec
          = "facebook/nllb-200-distilled-600M") := by
  intro device vram ram cache prec
  constructor
  · intro m p d h
    by_cases hd : device = "cuda"
    · rcases hc : tryPrecisions cache (vram - 2000) "cuda"
          (prec :: lowerPrecisions prec) with _ | mp
      · simp only [selectAuto, if_pos hd, hc] at h
        rcases hf : firstFit cache (NLLB_SPECS.filter ModelSpec.cpu_practical)
            (ram - 4000) prec "cpu" with _ | m'
        · rw [hf] at h
          simp at h
        · rw [hf] at h
          obtain ⟨rfl, rfl, rfl⟩ : m' = m ∧ prec = p ∧ "cpu" = d := by
            have hmp := Option.some.inj h
            exact ⟨congrArg Prod.fst hmp, congrArg (fun x => x.2.1) hmp,
              congrArg (fun x => x.2.2) hmp⟩
          exact firstFit_not_cached cache _ (ram - 4000) prec "cpu" m' hf
      · obtain ⟨m', p'⟩ := mp
        simp only [selectAuto, if_pos hd, hc] at h
        obtain ⟨rfl, rfl, rfl⟩ : m' = m ∧ p' = p ∧ "cuda" = d := by
          have hmp := Option.some.inj h
          exact ⟨congrArg Prod.fst hmp, congrArg (fun x => x.2.1) hmp,
            congrArg (fun x => x.2.2) hmp⟩
        exact tryPrecisions_not_cached cache (vram - 2000) "cuda" _ m' p' hc
    · simp only [selectAuto, if_neg hd] at h
      rcases hf : firstFit cache (NLLB_SPECS.filter ModelSpec.cpu_practical)
          (ram - 4000) prec "cpu" with _ | m'
      · rw [hf] at h
        simp at h
      · rw [hf] at h
        obtain ⟨rfl, rfl, rfl⟩ : m' = m ∧ prec = p ∧ "cpu" = d := by
          have hmp := Option.some.inj h
          exact ⟨congrArg Prod.fst hmp, congrArg (fun x => x.2.1) hmp,
            congrArg (fun x => x.2.2) hmp⟩
        exact firstFit_not_cached cache _ (ram - 4000) prec "cpu" m' hf
  · intro h
    unfold resolve_model_auto
    rw [h]
    rfl

/-- C1 witness: on an empty ledger a 30 GB CUDA host auto-selects the 3.3B
model at bf16, a combo the ledger does not contain; and on a 0 MB host the
search finds nothing and the fallback fires. -/
theorem C1_auto_skips_ledger_witness :
    is_cached_failure [] "facebook/nllb-200-3.3B" "bf16" "cuda" = false
    ∧ resolve_model_auto "cpu" 0 0 [] "fp32"
        = "facebook/nllb-200-distilled-600M" := by
  have hfit : decide (mem_mb 3300 "bf16" ≤ (28000 : ℤ)) = true := by
    rw [mem_mb_3300_bf16]; decide
  have h13 : decide (mem_mb 1300 "fp32" ≤ (-4000 : ℤ)) = false := by
    rw [mem_mb_1300_fp32]; decide
  have h600 : decide (mem_mb 600 "fp32" ≤ (-4000 : ℤ)) = false := by
    rw [mem_mb_600_fp32]; decide
  have hsel : selectAuto "cuda" 30000 0 [] "bf16"
      = some ("facebook/nllb-200-3.3B", "bf16", "cuda") := by
    simp [selectAuto, tryPrecisions, firstFit, NLLB_SPECS, List.find?, hfit,
      is_cached_failure, is_known_failure, lowerPrecisions]
  have hnone : selectAuto "cpu" 0 0 [] "fp32" = none := by
    simp [selectAuto, firstFit, NLLB_SPECS, List.find?, List.filter, h13, h600]
  exact ⟨(C1_auto_skips_ledger "cuda" 30000 0 [] "bf16").1
      "facebook/nllb-200-3.3B" "bf16" "cuda" hsel,
    (C1_auto_skips_ledger "cpu" 0 0 [] "fp32").2 hnone⟩

theorem pyRound_zero : pyRound 0 = 0 :=
  pyRound_of_lt_half 0 0 (by norm_num) (by norm_num)

theorem pyRound3_zero : pyRound3 0 = 0 := by
  unfold pyRound3
  rw [show ((0 : ℚ) * 1000) = 0 by norm_num, pyRound_zero]
  norm_num

/-- C8, counterexample: a translation whose first-token capture never fired
(`ttft_s` is `None`) and whose generation took 1000 ms for 5 output tokens
reports `ttft_ms = 0`, not `generate_ms / output_tokens = 200`. -/
theorem C8_counterexample :
    (translate_metrics 0 0 1 1 none 1 5).ttft_ms = 0
    ∧ (translate_metrics 0 0 1 1 none 1 5).generate_ms = 1000
    ∧ (translate_metrics 0 0 1 1 none 1 5).output_tokens = 5
    ∧ (translate_metrics 0 0 1 1 none 1 5).ttft_ms
        ≠ (translate_metrics 0 0 1 1 none 1 5).generate_ms
            / ((translate_metrics 0 0 1 1 none 1 5).output_tokens : ℚ) := by
  have hg : pyRound (1000000 : ℚ) = 1000000 :=
    pyRound_of_lt_half _ 1000000 (by norm_num) (by norm_num)
  have ht : (translate_metrics 0 0 1 1 none 1 5).ttft_ms = 0 := by
    simp [translate_metrics, pyRound3_zero]
  have hgen : (translate_metrics 0 0 1 1 none 1 5).generate_ms = 1000 := by
    simp only [translate_metrics, pyRound3]
    norm_num [hg]
  have hout : (translate_metrics 0 0 1 1 none 1 5).output_tokens = 5 := rfl
  refine ⟨ht, hgen, hout, ?_⟩
  rw [ht, hgen, hout]
  norm_num

/-- C8 (amended): whenever the first-token capture never fires, the reported
TTFT is 0 ms — not the generate-time / output-token average the spec
describes (that behaviour belongs to a different variant of the server). -/
theorem C8_ttft_fallback_zero : ∀ (t0 t1 t2 t3 : ℚ) (i o : ℕ),
    (translate_metrics t0 t1 t2 t3 none i o).ttft_ms = 0 := by
  intro t0 t1 t2 t3 i o
  simp [translate_metrics, pyRound3_zero]

end NllbServer
